import Mathlib

set_option maxRecDepth 10000

/-
Verification of the PharmaAi pharmacogenomic analysis pipeline.

The repository's visible Python files (src/test_accuracy.py, src/test_backend.py,
src/test_diversity.py, src/debug.py, src/run_backend.py) are tests and bootstrap
code exercising a backend package (backend.vcf_parser.parse_vcf_content and
backend.pharmacogenomics.analyze_vcf) whose source is not included.  The pipeline
below is therefore modelled from the specification (spec.md sections 2-4, 6-8),
keeping the names the tests use (parse_vcf_content, analyze_vcf, totalLines,
pharmacogenomicVariants, geneCoverage, pharmacogenomic_profile, risk_assessment,
quality_metrics, and the field names the tests read).

Confidence scores are rational numbers in [0,1]; internally the engine computes
an integer number of hundredths so that every computation is kernel-evaluable.
-/

namespace PharmaAi

/-- Modelled from the spec: zygosity categories of a genotype call (spec section 3,
GenotypeCall).  The backend module backend/vcf_parser.py is missing from the
visible sources. -/
inductive Zygosity where
  | homRef
  | het
  | homAlt
  | unknown
deriving DecidableEq, Repr

/-- Modelled from the spec: metabolizer phenotype categories, the fixed ordered
set of spec section 3 (Phenotype).  backend/pharmacogenomics.py is missing from
the visible sources. -/
inductive Phenotype where
  | poor
  | intermediate
  | normal
  | rapid
  | ultrarapid
deriving DecidableEq, Repr

/-- Split a character list on a separator character; n separators yield n+1
(possibly empty) chunks. -/
def splitOnChar (sep : Char) : List Char → List (List Char)
  | [] => [[]]
  | c :: cs =>
    let rest := splitOnChar sep cs
    if c = sep then [] :: rest
    else
      match rest with
      | [] => [[c]]
      | r :: rs => (c :: r) :: rs

/-- Split a character list on either genotype allele separator, the unphased
slash and the phased bar (spec section 4.2). -/
def splitGenoChars : List Char → List (List Char)
  | [] => [[]]
  | c :: cs =>
    let rest := splitGenoChars cs
    if c = '/' ∨ c = '|' then [] :: rest
    else
      match rest with
      | [] => [[c]]
      | r :: rs => (c :: r) :: rs

/-- Numeric value of a decimal digit character, none for a non-digit. -/
def digitVal (c : Char) : Option Nat :=
  if '0' ≤ c ∧ c ≤ '9' then some (c.toNat - '0'.toNat) else none

/-- Parse a non-empty all-digit character list as a natural number. -/
def parseNatChars (l : List Char) : Option Nat :=
  match l with
  | [] => none
  | _ =>
    l.foldl (fun acc c => acc.bind (fun n => (digitVal c).map (fun d => n * 10 + d)))
      (some 0)

/-- Parse a string as a natural number; none when empty or not all digits. -/
def parseNatStr (s : String) : Option Nat :=
  parseNatChars s.data

/-- Modelled from the spec: chromosome normalization, a leading "chr" prefix is
optional (spec section 3, VariantLine). -/
def normChrom (s : String) : String :=
  match s.data with
  | 'c' :: 'h' :: 'r' :: rest => String.mk rest
  | _ => s

/-- Modelled from the spec: one parsed variant line (spec section 3,
VariantLine).  backend/vcf_parser.py is missing from the visible sources. -/
structure VariantLine where
  chrom : String
  pos : Nat
  ident : String
  ref : String
  alt : String
  qual : String
  filterStatus : String
  info : String
  format : Option String
  sample : Option String
deriving DecidableEq, Repr

/-- A line is a header line when it begins with the comment marker. -/
def isHeaderLine : List Char → Bool
  | '#' :: _ => true
  | _ => false

/-- A completely empty line. -/
def isBlankLine : List Char → Bool
  | [] => true
  | _ => false

/-- Modelled from the spec: the data lines of the input text, i.e. the lines
that are neither blank nor header lines (spec section 4.1). -/
def dataLines (text : String) : List (List Char) :=
  (splitOnChar '\n' text.data).filter (fun l => !(isBlankLine l) && !(isHeaderLine l))

/-- Modelled from the spec: build a VariantLine from the tab-separated fields of
one data line; a line with fewer than eight columns is malformed and skipped
(spec section 4.1); an unparseable position falls back to the sentinel 0
(spec section 4.1, failure policy). -/
def lineToVariant (fields : List String) : Option VariantLine :=
  if fields.length < 8 then none
  else
    some
      { chrom := normChrom (fields.getD 0 "")
        pos := (parseNatStr (fields.getD 1 "")).getD 0
        ident := fields.getD 2 ""
        ref := fields.getD 3 ""
        alt := fields.getD 4 ""
        qual := fields.getD 5 ""
        filterStatus := fields.getD 6 ""
        info := fields.getD 7 ""
        format := fields.get? 8
        sample := fields.get? 9 }

/-- Modelled from the spec: the well-formed variant records of the input text
(spec section 4.1, Variant Record Reader). -/
def variantLines (text : String) : List VariantLine :=
  (dataLines text).filterMap (fun l => lineToVariant ((splitOnChar '\t' l).map String.mk))

/-- Modelled from the spec: locate the genotype subfield, by the declared
position of GT in the colon-delimited format column, inside the colon-delimited
sample column; empty when format or sample data is missing (spec section 4.2). -/
def extractGT (format sample : Option String) : String :=
  match format, sample with
  | some f, some s =>
    let fs := (splitOnChar ':' f.data).map String.mk
    let ss := (splitOnChar ':' s.data).map String.mk
    if fs.contains "GT" then ss.getD (fs.findIdx (fun x => x == "GT")) ""
    else ""
  | _, _ => ""

/-- Modelled from the spec: classify the zygosity of a genotype subfield
(spec section 3, GenotypeCall): two zero allele indices give
homozygous-reference, one zero and one non-zero in either order give
heterozygous, two equal non-zero indices give homozygous-alternate, anything
missing or unparseable gives unknown; both "/" and "|" separate alleles. -/
def classifyGenotype (gt : String) : Zygosity :=
  match (splitGenoChars gt.data).map parseNatChars with
  | [some a, some b] =>
    if a = 0 ∧ b = 0 then .homRef
    else if a = 0 ∨ b = 0 then .het
    else if a = b then .homAlt
    else .unknown
  | _ => .unknown

/-- Modelled from the spec: the Genotype Extractor (spec section 4.2), yielding
a zygosity from the optional format and sample columns; missing data yields
unknown with no error. -/
def extractZygosity (format sample : Option String) : Zygosity :=
  classifyGenotype (extractGT format sample)

/-- Modelled from the spec: one catalog locus entry, identifier-or-coordinate
to gene and star allele (spec section 4.3, lookup a). -/
structure CatalogEntry where
  rsid : String
  chrom : String
  pos : Nat
  gene : String
  starAllele : String
deriving DecidableEq, Repr

/-- Modelled from the spec: the static pharmacogenomic locus catalog
(spec section 4.3).  The concrete values are reference data; they are chosen
consistent with the loci exercised by src/test_accuracy.py and
src/test_diversity.py, each mapped to a distinct gene. -/
def pgxCatalog : List CatalogEntry :=
  [ ⟨"rs3892097", "22", 42128945, "CYP2D6", "*4"⟩,
    ⟨"rs4244285", "10", 94781859, "CYP2C19", "*2"⟩,
    ⟨"rs1799853", "10", 94942290, "CYP2C9", "*2"⟩,
    ⟨"rs4149056", "12", 21178615, "SLCO1B1", "*5"⟩,
    ⟨"rs1142345", "6", 18139051, "TPMT", "*3C"⟩,
    ⟨"rs3918290", "1", 97915614, "DPYD", "*2A"⟩ ]

/-- The distinct genes appearing in the locus catalog. -/
def catalogGenes : List String :=
  (pgxCatalog.map (fun e => e.gene)).eraseDups

/-- Modelled from the spec: a detected clinically relevant variant
(spec section 3, DetectedVariant); field names follow src/test_accuracy.py. -/
structure DetectedVariant where
  rsid : String
  gene : String
  starAllele : String
  genotype : String
  zygosity : Zygosity
deriving DecidableEq, Repr

/-- Modelled from the spec: the Variant Matcher for one record (spec
section 4.4): look up the catalog by identifier first, then by
chromosome and position; on a hit emit one DetectedVariant carrying the
line's genotype call; no emission for loci absent from the catalog. -/
def matchVariant (v : VariantLine) : Option DetectedVariant :=
  match pgxCatalog.find? (fun e => e.rsid == v.ident) with
  | some e => some ⟨e.rsid, e.gene, e.starAllele, extractGT v.format v.sample,
      extractZygosity v.format v.sample⟩
  | none =>
    match pgxCatalog.find? (fun e => e.chrom == v.chrom && e.pos == v.pos) with
    | some e => some ⟨e.rsid, e.gene, e.starAllele, extractGT v.format v.sample,
        extractZygosity v.format v.sample⟩
    | none => none

/-- Modelled from the spec: gene coverage (spec sections 3 and 4.4): a gene is
covered iff some input line's chromosome and position match one of that gene's
catalog loci, independent of the called genotype. -/
def geneIsCovered (vls : List VariantLine) (g : String) : Bool :=
  pgxCatalog.any (fun e => e.gene == g && vls.any (fun v => v.chrom == e.chrom && v.pos == e.pos))

/-- Modelled from the spec: the parse result exposed to callers (spec
section 6, parse): total data-line count, detected variants, per-gene
coverage; field names follow src/test_accuracy.py. -/
structure ParseResult where
  totalLines : Nat
  pharmacogenomicVariants : List DetectedVariant
  geneCoverage : List (String × Bool)
deriving DecidableEq, Repr

/-- Modelled from the spec: parse_vcf_content (spec sections 4.1 and 6), the
counterpart of backend.vcf_parser.parse_vcf_content, whose source is missing
from the visible repository. -/
def parse_vcf_content (text : String) : ParseResult :=
  let vls := variantLines text
  { totalLines := (dataLines text).length
    pharmacogenomicVariants := vls.filterMap matchVariant
    geneCoverage := catalogGenes.map (fun g => (g, geneIsCovered vls g)) }

/-- Coverage flag of one gene in a parse result, false when the gene is not
listed. -/
def coverageOf (pr : ParseResult) (g : String) : Bool :=
  (pr.geneCoverage.lookup g).getD false

/-- Modelled from the spec: the default (reference) allele label of the
catalog's default diplotype (spec section 3, Diplotype). -/
def defaultAllele : String := "*1"

/-- The detected variants of a parse result that belong to one gene. -/
def geneVariants (pr : ParseResult) (g : String) : List DetectedVariant :=
  pr.pharmacogenomicVariants.filter (fun v => v.gene == g)

/-- Modelled from the spec: one Diplotype Resolver step (spec section 4.5):
homozygous-alternate fills both allele slots with the variant's star allele;
heterozygous fills exactly one still-default slot; homozygous-reference leaves
the slots unchanged; unknown leaves the slots unchanged but flags the
diplotype low-confidence. -/
def applyVariant (acc : (String × String) × Bool) (dv : DetectedVariant) :
    (String × String) × Bool :=
  match dv.zygosity with
  | .homAlt => ((dv.starAllele, dv.starAllele), acc.2)
  | .het =>
    if acc.1.2 == defaultAllele then ((acc.1.1, dv.starAllele), acc.2)
    else if acc.1.1 == defaultAllele then ((dv.starAllele, acc.1.2), acc.2)
    else (acc.1, acc.2)
  | .homRef => acc
  | .unknown => (acc.1, true)

/-- Modelled from the spec: the Diplotype Resolver (spec section 4.5): starting
from the default both-reference diplotype, fold the gene's detected variants;
the Bool is the low-confidence flag. -/
def resolveDiplotype (dvs : List DetectedVariant) : (String × String) × Bool :=
  dvs.foldl applyVariant ((defaultAllele, defaultAllele), false)

/-- The diplotype resolved for one gene of a parse result. -/
def geneDiplotype (pr : ParseResult) (g : String) : String × String :=
  (resolveDiplotype (geneVariants pr g)).1

/-- The low-confidence flag of the diplotype resolved for one gene. -/
def geneLowConf (pr : ParseResult) (g : String) : Bool :=
  (resolveDiplotype (geneVariants pr g)).2

/-- Modelled from the spec: the catalog's phenotype lookup (spec section 4.3,
lookup b): a total map from gene and diplotype to a metabolizer phenotype with
a defined fallback; the reference content grades by the number of non-default
allele slots: none gives normal, one gives intermediate, two gives poor. -/
def phenotypeLookup (gene : String) (d : String × String) : Phenotype :=
  let _ := gene
  match (if d.1 == defaultAllele then 0 else 1) + (if d.2 == defaultAllele then 0 else 1) with
  | 0 => .normal
  | 1 => .intermediate
  | _ => .poor

/-- Modelled from the spec: the Phenotype Resolver (spec section 4.6), a pure
function of gene and diplotype. -/
def genePhenotype (pr : ParseResult) (g : String) : Phenotype :=
  phenotypeLookup g (geneDiplotype pr g)

/-- Modelled from the spec: one row of a drug's rule table (spec section 4.3,
lookup c): phenotype to risk label, ordinal severity and base confidence; the
base confidence is kept in integer hundredths of the unit interval. -/
structure DrugRule where
  phenotype : Phenotype
  risk_label : String
  severity : Nat
  baseConfidencePct : Int
deriving DecidableEq, Repr

/-- Modelled from the spec: one catalog drug with its primary gene and rule
table (spec section 4.3, lookup c). -/
structure Drug where
  name : String
  primaryGene : String
  rules : List DrugRule
deriving DecidableEq, Repr

/-- Modelled from the spec: the defined fallback rule applied to phenotypes not
explicitly listed in a drug's rule table (spec section 4.3). -/
def fallbackRule : DrugRule := ⟨.normal, "Unknown risk", 0, 50⟩

/-- Modelled from the spec: the reference rule table shared by the catalog
drugs; every phenotype of the fixed set is listed, with a uniform base
confidence of 85 hundredths. -/
def stdRules : List DrugRule :=
  [ ⟨.normal, "Safe to use", 0, 85⟩,
    ⟨.intermediate, "Use with caution", 1, 85⟩,
    ⟨.poor, "High risk", 2, 85⟩,
    ⟨.rapid, "Adjust dosage", 1, 85⟩,
    ⟨.ultrarapid, "Adjust dosage", 2, 85⟩ ]

/-- The first catalog drug, named so that witnesses can point at it. -/
def codeine : Drug := ⟨"Codeine", "CYP2D6", stdRules⟩

/-- Modelled from the spec: the built-in drug catalog (spec section 4.3); the
drug names are reference data chosen consistent with the genes exercised by
the visible tests, one drug per catalog gene. -/
def drugCatalog : List Drug :=
  [ codeine,
    ⟨"Clopidogrel", "CYP2C19", stdRules⟩,
    ⟨"Warfarin", "CYP2C9", stdRules⟩,
    ⟨"Simvastatin", "SLCO1B1", stdRules⟩,
    ⟨"Azathioprine", "TPMT", stdRules⟩,
    ⟨"Fluorouracil", "DPYD", stdRules⟩ ]

/-- The rule a drug applies to a phenotype, with the defined fallback. -/
def ruleFor (d : Drug) (ph : Phenotype) : DrugRule :=
  (d.rules.find? (fun r => r.phenotype == ph)).getD fallbackRule

/-- Modelled from the spec: the confidence penalty, in hundredths, applied when
the primary gene is not covered (spec section 4.7); the magnitude is a policy
value (spec section 9). -/
def coveragePenaltyPct : Int := 30

/-- Modelled from the spec: the confidence penalty, in hundredths, applied when
the gene's diplotype was flagged low-confidence (spec section 4.7); the
magnitude is a policy value (spec section 9). -/
def lowConfPenaltyPct : Int := 25

/-- Clamp an integer number of hundredths into [0, 100], the integer image of
clamping the confidence to [0, 1] (spec section 4.7). -/
def clampPct (x : Int) : Int :=
  if x ≤ 0 then 0 else if 100 ≤ x then 100 else x

/-- The coverage penalty actually charged for a coverage flag: nothing when the
gene is covered, the full penalty when it is not. -/
def coveragePenaltyOf : Bool → Int
  | true => 0
  | false => coveragePenaltyPct

/-- The low-confidence penalty actually charged for a diplotype flag. -/
def lowConfPenaltyOf : Bool → Int
  | true => lowConfPenaltyPct
  | false => 0

/-- Modelled from the spec: the adjusted confidence of one drug, in hundredths
(spec section 4.7): the rule's base confidence, minus the coverage penalty when
the given coverage flag is false, minus the low-confidence penalty when the
gene's diplotype is flagged, clamped into the unit interval. -/
def confidencePctFor (pr : ParseResult) (d : Drug) (covered : Bool) : Int :=
  clampPct ((ruleFor d (genePhenotype pr d.primaryGene)).baseConfidencePct -
    coveragePenaltyOf covered - lowConfPenaltyOf (geneLowConf pr d.primaryGene))

/-- Modelled from the spec: the per-drug pharmacogenomic profile of a result;
field names follow src/test_accuracy.py. -/
structure PharmacogenomicProfile where
  primary_gene : String
  diplotype : String × String
  phenotype : Phenotype
  detected_variants : List DetectedVariant
deriving DecidableEq, Repr

/-- Modelled from the spec: a risk assessment (spec section 3): risk label,
ordinal severity, confidence score in [0,1]; field names follow
src/test_accuracy.py. -/
structure RiskAssessment where
  risk_label : String
  severity : Nat
  confidence_score : Rat
deriving DecidableEq, Repr

/-- Modelled from the spec: the per-drug quality metrics; field names follow
src/test_accuracy.py. -/
structure QualityMetrics where
  gene_covered : Bool
deriving DecidableEq, Repr

/-- Modelled from the spec: one per-drug analysis result (spec section 3,
DrugAnalysisResult); field names follow src/test_accuracy.py. -/
structure DrugAnalysisResult where
  drug : String
  pharmacogenomic_profile : PharmacogenomicProfile
  risk_assessment : RiskAssessment
  quality_metrics : QualityMetrics
deriving DecidableEq, Repr

/-- Modelled from the spec: assemble the result of one drug given an explicit
coverage flag (spec sections 4.7 and 4.8); the flag is a parameter so that the
coverage-gating property can speak about the same input with coverage true. -/
def resultForCov (pr : ParseResult) (d : Drug) (covered : Bool) : DrugAnalysisResult :=
  { drug := d.name
    pharmacogenomic_profile :=
      { primary_gene := d.primaryGene
        diplotype := geneDiplotype pr d.primaryGene
        phenotype := genePhenotype pr d.primaryGene
        detected_variants := geneVariants pr d.primaryGene }
    risk_assessment :=
      { risk_label := (ruleFor d (genePhenotype pr d.primaryGene)).risk_label
        severity := (ruleFor d (genePhenotype pr d.primaryGene)).severity
        confidence_score := ((confidencePctFor pr d covered : Int) : Rat) / 100 }
    quality_metrics := { gene_covered := covered } }

/-- Modelled from the spec: the result of one drug, with the coverage flag of
its primary gene (spec section 4.7). -/
def resultFor (pr : ParseResult) (d : Drug) : DrugAnalysisResult :=
  resultForCov pr d (coverageOf pr d.primaryGene)

/-- Modelled from the spec: analyze_vcf (spec sections 4.7, 4.8 and 6), the
counterpart of backend.pharmacogenomics.analyze_vcf, whose source is missing
from the visible repository: one result per catalog drug, in catalog order;
the patient id is opaque and does not influence the computation. -/
def analyze_vcf (text patient_id : String) : List DrugAnalysisResult :=
  let _ := patient_id
  drugCatalog.map (resultFor (parse_vcf_content text))

/-- The six-data-line single-sample input of src/test_accuracy.py: header and
comment lines, one column-header line, then six tab-delimited data lines with
genotype fields, covering six distinct reference-SNP identifiers each mapped in
the catalog to a distinct gene. -/
def testVcf : String :=
  "##fileformat=VCFv4.2\n##source=PharmaGuardTest\n##reference=GRCh38\n#CHROM\tPOS\tID\tREF\tALT\tQUAL\tFILTER\tINFO\tFORMAT\tSAMPLE1\nchr22\t42128945\trs3892097\tC\tT\t100\tPASS\t.\tGT:DP\t0/1:35\nchr10\t94781859\trs4244285\tG\tA\t200\tPASS\t.\tGT:DP\t1/1:42\nchr10\t94942290\trs1799853\tC\tT\t150\tPASS\t.\tGT:DP\t0/1:28\nchr12\t21178615\trs4149056\tT\tC\t180\tPASS\t.\tGT:DP\t0/0:50\nchr6\t18139051\trs1142345\tA\tG\t120\tPASS\t.\tGT:DP\t0/1:30\nchr1\t97915614\trs3918290\tC\tT\t250\tPASS\t.\tGT:DP\t1/1:60\n"

/-- The same six loci as testVcf but with no FORMAT and no sample column at
all (spec section 8, second concrete scenario). -/
def noFormatVcf : String :=
  "##fileformat=VCFv4.2\n#CHROM\tPOS\tID\tREF\tALT\tQUAL\tFILTER\tINFO\nchr22\t42128945\trs3892097\tC\tT\t100\tPASS\t.\nchr10\t94781859\trs4244285\tG\tA\t200\tPASS\t.\nchr10\t94942290\trs1799853\tC\tT\t150\tPASS\t.\nchr12\t21178615\trs4149056\tT\tC\t180\tPASS\t.\nchr6\t18139051\trs1142345\tA\tG\t120\tPASS\t.\nchr1\t97915614\trs3918290\tC\tT\t250\tPASS\t.\n"

/-- A file whose only data line matches no catalog entry, neither by identifier
nor by chromosome and position (spec section 8, third concrete scenario). -/
def noMatchVcf : String :=
  "##fileformat=VCFv4.2\n##fileDate=20240101\n##source=Test\n#CHROM\tPOS\tID\tREF\tALT\tQUAL\tFILTER\tINFO\n3\t12345\trs9999999\tA\tG\t.\t.\t.\n"

/-- A placeholder result used as the default of list indexing in closed
statements; never a member of any analysis output. -/
def dummyResult : DrugAnalysisResult :=
  ⟨"", ⟨"", ("", ""), .normal, []⟩, ⟨"", 0, 0⟩, ⟨false⟩⟩

/-- The confidence score of fifty-five hundredths, in the exact shape the
engine produces it. -/
def q55 : Rat := ((55 : Int) : Rat) / 100

/-- The confidence score of sixty hundredths, in the exact shape the engine
produces it. -/
def q60 : Rat := ((60 : Int) : Rat) / 100

/-- The confidence score of eighty-five hundredths, in the exact shape the
engine produces it. -/
def q85 : Rat := ((85 : Int) : Rat) / 100

/-- The analysis output is the catalog mapped through the per-drug assembler. -/
theorem analyze_vcf_eq_map (t p : String) :
    analyze_vcf t p = drugCatalog.map (resultFor (parse_vcf_content t)) := rfl

/-- The confidence score of an assembled result is its integer hundredths cast
to the rationals and divided by one hundred. -/
theorem confidence_score_eq (pr : ParseResult) (d : Drug) (cov : Bool) :
    (resultForCov pr d cov).risk_assessment.confidence_score =
      ((confidencePctFor pr d cov : Int) : Rat) / 100 := rfl

/-- The clamped confidence hundredths always lie in [0, 100]. -/
theorem confidencePct_bounds (pr : ParseResult) (d : Drug) (cov : Bool) :
    0 ≤ confidencePctFor pr d cov ∧ confidencePctFor pr d cov ≤ 100 := by
  unfold confidencePctFor clampPct
  split_ifs <;> omega

/-- Dropping the coverage penalty cannot lower the clamped confidence. -/
theorem confidencePct_cov_mono (pr : ParseResult) (d : Drug) :
    confidencePctFor pr d false ≤ confidencePctFor pr d true := by
  cases hl : geneLowConf pr d.primaryGene <;>
    simp only [confidencePctFor, hl, coveragePenaltyOf, lowConfPenaltyOf,
      coveragePenaltyPct, lowConfPenaltyPct, clampPct] <;>
    split_ifs <;> omega

/-- An integer number of hundredths in [0, 100] divides to a rational in
[0, 1]. -/
theorem pct_div_bounds (n : Int) (h0 : 0 ≤ n) (h1 : n ≤ 100) :
    (0 : Rat) ≤ (n : Rat) / 100 ∧ (n : Rat) / 100 ≤ 1 := by
  constructor
  · apply div_nonneg _ (by norm_num)
    exact_mod_cast h0
  · rw [div_le_one (by norm_num)]
    exact_mod_cast h1

/-- C1: for every input text and patient id, analyze_vcf returns exactly one
DrugAnalysisResult per drug in the catalog, never fewer, in catalog order —
including when the input yields zero detected variants anywhere. -/
theorem c1_totality (text pid : String) :
    (analyze_vcf text pid).length = drugCatalog.length ∧
    (analyze_vcf text pid).map (fun r => r.drug) = drugCatalog.map (fun d => d.name) := by
  constructor
  · rw [analyze_vcf_eq_map]
    exact List.length_map _ _
  · rw [analyze_vcf_eq_map, List.map_map]
    rfl

/-- C2: within a single analyze_vcf call, any two returned results whose
primary genes are equal report an identical diplotype and an identical
phenotype. -/
theorem c2_gene_sharing (t p : String) (r₁ r₂ : DrugAnalysisResult)
    (h₁ : r₁ ∈ analyze_vcf t p) (h₂ : r₂ ∈ analyze_vcf t p)
    (hg : r₁.pharmacogenomic_profile.primary_gene = r₂.pharmacogenomic_profile.primary_gene) :
    r₁.pharmacogenomic_profile.diplotype = r₂.pharmacogenomic_profile.diplotype ∧
    r₁.pharmacogenomic_profile.phenotype = r₂.pharmacogenomic_profile.phenotype := by
  rw [analyze_vcf_eq_map] at h₁ h₂
  obtain ⟨d₁, hd₁, rfl⟩ := List.mem_map.mp h₁
  obtain ⟨d₂, hd₂, rfl⟩ := List.mem_map.mp h₂
  have hg2 : d₁.primaryGene = d₂.primaryGene := hg
  constructor
  · show geneDiplotype (parse_vcf_content t) d₁.primaryGene =
      geneDiplotype (parse_vcf_content t) d₂.primaryGene
    rw [hg2]
  · show genePhenotype (parse_vcf_content t) d₁.primaryGene =
      genePhenotype (parse_vcf_content t) d₂.primaryGene
    rw [hg2]

/-- C2 witness: the gene-sharing consistency theorem applied to the Codeine
result of an analysis of the empty input. -/
theorem c2_witness :
    (resultFor (parse_vcf_content "") codeine).pharmacogenomic_profile.diplotype =
      (resultFor (parse_vcf_content "") codeine).pharmacogenomic_profile.diplotype ∧
    (resultFor (parse_vcf_content "") codeine).pharmacogenomic_profile.phenotype =
      (resultFor (parse_vcf_content "") codeine).pharmacogenomic_profile.phenotype :=
  c2_gene_sharing "" "X" _ _
    (List.mem_map_of_mem _ (by decide))
    (List.mem_map_of_mem _ (by decide)) rfl

/-- C3: every confidence score in every result returned by analyze_vcf, for
any input, lies in the closed interval [0, 1]. -/
theorem c3_confidence_bounds (t p : String) (r : DrugAnalysisResult)
    (h : r ∈ analyze_vcf t p) :
    0 ≤ r.risk_assessment.confidence_score ∧ r.risk_assessment.confidence_score ≤ 1 := by
  rw [analyze_vcf_eq_map] at h
  obtain ⟨d, hd, rfl⟩ := List.mem_map.mp h
  rw [resultFor, confidence_score_eq]
  obtain ⟨h0, h1⟩ := confidencePct_bounds (parse_vcf_content t) d
    (coverageOf (parse_vcf_content t) d.primaryGene)
  exact pct_div_bounds _ h0 h1

/-- C3 witness: the confidence bounds theorem applied to the Codeine result of
an analysis of the empty input. -/
theorem c3_witness :
    0 ≤ (resultFor (parse_vcf_content "") codeine).risk_assessment.confidence_score ∧
    (resultFor (parse_vcf_content "") codeine).risk_assessment.confidence_score ≤ 1 :=
  c3_confidence_bounds "" "X" _ (List.mem_map_of_mem _ (by decide))

/-- C4: the genotype extractor classifies zygosity exactly as specified:
"0/0" is homozygous-reference, "0/1" and "1/0" are heterozygous, "1/1" is
homozygous-alternate, an absent or malformed subfield is unknown, and both the
phased bar and the unphased slash separators are accepted. -/
theorem c4_zygosity_mapping :
    classifyGenotype "0/0" = Zygosity.homRef ∧
    classifyGenotype "0/1" = Zygosity.het ∧
    classifyGenotype "1/0" = Zygosity.het ∧
    classifyGenotype "1/1" = Zygosity.homAlt ∧
    classifyGenotype "0|0" = Zygosity.homRef ∧
    classifyGenotype "0|1" = Zygosity.het ∧
    classifyGenotype "1|0" = Zygosity.het ∧
    classifyGenotype "1|1" = Zygosity.homAlt ∧
    classifyGenotype "./." = Zygosity.unknown ∧
    classifyGenotype "" = Zygosity.unknown ∧
    classifyGenotype "0/1/1" = Zygosity.unknown ∧
    (∀ s : Option String, extractZygosity none s = Zygosity.unknown) ∧
    (∀ f : Option String, extractZygosity f none = Zygosity.unknown) := by
  refine ⟨by decide, by decide, by decide, by decide, by decide, by decide, by decide,
    by decide, by decide, by decide, by decide, ?_, ?_⟩
  · intro s
    cases s <;> rfl
  · intro f
    cases f <;> rfl

/-- C5: confidence is monotone in coverage: for any input, a drug whose
primary gene has a false coverage flag still appears in the output, and its
confidence score is at most the confidence the same input would yield with
coverage true, all else equal. -/
theorem c5_coverage_gating (t p : String) (d : Drug) (hd : d ∈ drugCatalog)
    (hcov : coverageOf (parse_vcf_content t) d.primaryGene = false) :
    resultFor (parse_vcf_content t) d ∈ analyze_vcf t p ∧
    (resultFor (parse_vcf_content t) d).risk_assessment.confidence_score ≤
      (resultForCov (parse_vcf_content t) d true).risk_assessment.confidence_score := by
  refine ⟨by rw [analyze_vcf_eq_map]; exact List.mem_map_of_mem _ hd, ?_⟩
  rw [resultFor, hcov, confidence_score_eq, confidence_score_eq]
  have hple := confidencePct_cov_mono (parse_vcf_content t) d
  have hc : ((confidencePctFor (parse_vcf_content t) d false : Int) : Rat) ≤
      ((confidencePctFor (parse_vcf_content t) d true : Int) : Rat) := by
    exact_mod_cast hple
  exact div_le_div_of_nonneg_right hc (by norm_num)

/-- C5 witness: the coverage-gating theorem applied to Codeine on the empty
input, where no gene is covered. -/
theorem c5_witness :
    resultFor (parse_vcf_content "") codeine ∈ analyze_vcf "" "X" ∧
    (resultFor (parse_vcf_content "") codeine).risk_assessment.confidence_score ≤
      (resultForCov (parse_vcf_content "") codeine true).risk_assessment.confidence_score :=
  c5_coverage_gating "" "X" codeine (by decide) (by decide)

/-- C6: on the six-data-line single-sample input, parse_vcf_content reports a
total of exactly six data lines (header lines not counted) and exactly six
detected variants in six distinct genes, and analyze_vcf returns a pair of
drugs whose primary genes differ and whose risk labels differ. -/
theorem c6_concrete_scenario :
    (parse_vcf_content testVcf).totalLines = 6 ∧
    (parse_vcf_content testVcf).pharmacogenomicVariants.length = 6 ∧
    (((parse_vcf_content testVcf).pharmacogenomicVariants.map (fun v => v.gene)).eraseDups).length = 6 ∧
    ((analyze_vcf testVcf "T").getD 0 dummyResult).pharmacogenomic_profile.primary_gene ≠
      ((analyze_vcf testVcf "T").getD 1 dummyResult).pharmacogenomic_profile.primary_gene ∧
    ((analyze_vcf testVcf "T").getD 0 dummyResult).risk_assessment.risk_label ≠
      ((analyze_vcf testVcf "T").getD 1 dummyResult).risk_assessment.risk_label :=
  ⟨by decide, by decide, by decide, by decide, by decide⟩

/-- C7: analyze_vcf is deterministic in the input text and ignores the patient
id: two calls on identical input agree, and varying only the patient id
changes nothing. -/
theorem c7_determinism (text p₁ p₂ : String) :
    analyze_vcf text p₁ = analyze_vcf text p₁ ∧
    analyze_vcf text p₁ = analyze_vcf text p₂ :=
  ⟨rfl, rfl⟩

/-- C8: on a file whose only data line matches no catalog entry by identifier
or by chromosome and position, the detected-variant list is empty, every
gene's coverage is false, and analyze_vcf still returns one default-phenotype,
default-diplotype, reduced-confidence result per catalog drug. -/
theorem c8_no_match_scenario :
    (parse_vcf_content noMatchVcf).pharmacogenomicVariants = [] ∧
    ((parse_vcf_content noMatchVcf).geneCoverage.all (fun gb => gb.2 == false)) = true ∧
    (analyze_vcf noMatchVcf "P").length = drugCatalog.length ∧
    ((analyze_vcf noMatchVcf "P").all (fun r =>
      r.pharmacogenomic_profile.phenotype == Phenotype.normal &&
      r.pharmacogenomic_profile.diplotype == (defaultAllele, defaultAllele) &&
      !r.quality_metrics.gene_covered)) = true ∧
    ((analyze_vcf noMatchVcf "P").map (fun r => r.risk_assessment.confidence_score)) =
      [q55, q55, q55, q55, q55, q55] ∧
    q55 < q85 := by
  refine ⟨by decide, by decide, by decide, by decide, rfl, ?_⟩
  show ((55 : Int) : Rat) / 100 < ((85 : Int) : Rat) / 100
  norm_num

/-- C9: on a file with no FORMAT and no sample columns at all, genotype
extraction yields unknown for every record, every detected variant has
zygosity unknown, and every resulting confidence score is strictly less than
the score analyze_vcf produces with confident genotype calls on the identical
loci. -/
theorem c9_no_format_scenario :
    ((variantLines noFormatVcf).all
      (fun v => extractZygosity v.format v.sample == Zygosity.unknown)) = true ∧
    ((parse_vcf_content noFormatVcf).pharmacogenomicVariants.all
      (fun v => v.zygosity == Zygosity.unknown)) = true ∧
    (parse_vcf_content noFormatVcf).pharmacogenomicVariants.length = 6 ∧
    ((analyze_vcf noFormatVcf "P").map (fun r => r.risk_assessment.confidence_score)) =
      [q60, q60, q60, q60, q60, q60] ∧
    ((analyze_vcf testVcf "P").map (fun r => r.risk_assessment.confidence_score)) =
      [q85, q85, q85, q85, q85, q85] ∧
    q60 < q85 := by
  refine ⟨by decide, by decide, by decide, rfl, rfl, ?_⟩
  show ((60 : Int) : Rat) / 100 < ((85 : Int) : Rat) / 100
  norm_num

/-- C10: the built-in drug catalog contains at least two drugs with at least
two distinct primary genes, so every analyze_vcf call returns results naming
at least two distinct drugs and at least two distinct primary genes. -/
theorem c10_catalog_diversity (t p : String) :
    2 ≤ drugCatalog.length ∧
    2 ≤ ((drugCatalog.map (fun d => d.primaryGene)).eraseDups).length ∧
    2 ≤ (((analyze_vcf t p).map (fun r => r.drug)).eraseDups).length ∧
    2 ≤ (((analyze_vcf t p).map
      (fun r => r.pharmacogenomic_profile.primary_gene)).eraseDups).length := by
  refine ⟨by decide, by decide, ?_, ?_⟩
  · have h : (analyze_vcf t p).map (fun r => r.drug) =
        ["Codeine", "Clopidogrel", "Warfarin", "Simvastatin", "Azathioprine", "Fluorouracil"] := rfl
    rw [h]
    decide
  · have h : (analyze_vcf t p).map (fun r => r.pharmacogenomic_profile.primary_gene) =
        ["CYP2D6", "CYP2C19", "CYP2C9", "SLCO1B1", "TPMT", "DPYD"] := rfl
    rw [h]
    decide

end PharmaAi
